import Mathlib

/-!
# Verification of the scoped-api authentication/authorization core

Shallow embedding of the core of the `scoped-api` user-account service:
the credential codec (`app/auth/auth.py`), the token service
(`create_access_token` and the PyJWT encode/decode pair it relies on),
the scope authorizer (`user/get.py`), and the account store operations
(`user/create.py`, `app/routers/auth/user_me_router.py`).

The relational store is modelled as a list of user rows; async I/O is
modelled by plain function application; Python exceptions become
`Except` results.
-/

namespace ScopedApi

/-! ## Python string containment (`sub in s`)

`user/get.py` checks required scopes with `scope not in token_data.scopes`
where `token_data.scopes` is a `str`, i.e. Python substring containment.
We model it on character lists. -/

/-- Prefix test: `listPre a b` is true when `a` is a (contiguous, initial) prefix of `b`,
matching `List.IsPrefix`. -/
def listPre : List Char → List Char → Bool
  | [], _ => true
  | _ :: _, [] => false
  | a :: as, b :: bs => a == b && listPre as bs

/-- Infix test: `listSub sub l` is true when `sub` occurs contiguously inside `l`,
matching `List.IsInfix`. -/
def listSub (sub : List Char) : List Char → Bool
  | [] => sub.isEmpty
  | b :: bs => listPre sub (b :: bs) || listSub sub bs

/-- Python containment `sub in s` on strings: substring containment. -/
def pyIn (sub s : String) : Bool := listSub sub.toList s.toList

theorem listPre_iff (a b : List Char) : listPre a b = true ↔ a <+: b := by
  induction a generalizing b with
  | nil => simp [listPre]
  | cons x xs ih =>
    cases b with
    | nil => simp [listPre]
    | cons y ys =>
      simp only [listPre, Bool.and_eq_true, beq_iff_eq, ih, List.cons_prefix_cons]

theorem listSub_iff (a b : List Char) : listSub a b = true ↔ a <:+: b := by
  induction b with
  | nil =>
    simp only [listSub, List.isEmpty_iff]
    constructor
    · rintro rfl; exact List.infix_rfl
    · intro h; exact List.eq_nil_of_infix_nil h
  | cons y ys ih =>
    simp only [listSub, Bool.or_eq_true, listPre_iff, ih]
    constructor
    · rintro (h | h)
      · exact h.isInfix
      · exact h.trans (List.suffix_cons y ys).isInfix
    · intro h
      rcases List.infix_cons_iff.mp h with h | h
      · exact Or.inl h
      · exact Or.inr h

/-- Containment `pyIn` agrees with infix containment of the character lists. -/
theorem pyIn_iff (sub s : String) : pyIn sub s = true ↔ sub.toList <:+: s.toList :=
  listSub_iff _ _

/-! ## HTTP failure outcomes

`fastapi.HTTPException` carries a status code, a detail message, and an
optional `WWW-Authenticate` challenge header. -/

structure HTTPException where
  statusCode : Nat
  detail : String
  wwwAuthenticate : Option String
  deriving DecidableEq, Repr

/-! ## Token service (`app/auth/auth.py` and PyJWT)

A claim set carries `sub` and `scopes` (either may be absent, matching
`payload.get`) and the `exp` Unix timestamp. A signed token is the claim
set together with the secret and algorithm it was signed under; decoding
under a different secret or algorithm fails signature verification. -/

structure JwtClaims where
  sub : Option String
  scopes : Option String
  exp : Int
  deriving DecidableEq, Repr

structure SignedToken where
  claims : JwtClaims
  secret : String
  alg : String
  deriving DecidableEq, Repr

/-- Model of `jwt.encode(to_encode, SECRET_KEY, algorithm=ALGORITHM)`. -/
def jwt_encode (claims : JwtClaims) (secret alg : String) : SignedToken :=
  ⟨claims, secret, alg⟩

/-- Model of `jwt.decode(token, SECRET_KEY, algorithms=[ALGORITHM])`: rejects a bad
signature, a wrong algorithm, and an expired token (PyJWT raises
`ExpiredSignatureError` when `exp < now`). -/
def jwt_decode (t : SignedToken) (secret alg : String) (now : Int) :
    Except String JwtClaims :=
  if t.secret ≠ secret then .error "Signature verification failed"
  else if t.alg ≠ alg then .error "The specified alg value is not allowed"
  else if t.claims.exp < now then .error "Signature has expired"
  else .ok t.claims

/-- The payload handed to `create_access_token`
(e.g. the login flow passes a dict with keys sub and scopes). -/
structure TokenPayload where
  sub : Option String
  scopes : Option String
  deriving DecidableEq, Repr

/-- Python truthiness of an optional duration in seconds: `None` and
`timedelta(0)` are falsy, every other duration is truthy. -/
def timedeltaTruthy : Option Int → Bool
  | none => false
  | some d => d != 0

/-- Embedding of `create_access_token(data, expires_delta)` from `app/auth/auth.py`:
`if expires_delta:` selects the caller's delta, otherwise (None or a falsy
zero delta) the fixed 15-minute fallback; the `exp` claim is added and the
result signed. `now` is `datetime.now(timezone.utc)` in Unix seconds. -/
def create_access_token (data : TokenPayload) (expires_delta : Option Int)
    (now : Int) (secret alg : String) : SignedToken :=
  let expire : Int :=
    if timedeltaTruthy expires_delta then now + expires_delta.getD 0
    else now + 15 * 60
  jwt_encode ⟨data.sub, data.scopes, expire⟩ secret alg

/-! ## Store rows (`app/db/users.py`) -/

/-- One row of the `users` table. -/
structure DbUser where
  id : Nat
  username : String
  email : Option String
  hashed_password : String
  full_name : Option String
  disabled : Bool
  scopes : String
  deriving DecidableEq, Repr

/-- Lookup `get_user(db, username)` for a non-None username: first row whose
`username` column matches (`user/get.py`). -/
def get_user (db : List DbUser) (username : String) : Option DbUser :=
  db.find? (fun u => u.username == username)

/-! ## Scope authorizer (`user/get.py`, `get_current_user`) -/

/-- The `WWW-Authenticate` challenge value built at the top of
`get_current_user`. -/
def authenticateValue (securityScopes : List String) : String :=
  if securityScopes ≠ [] then
    "Bearer scope=\"" ++ String.intercalate " " securityScopes ++ "\""
  else "Bearer"

/-- The 401 raised on extract/decode/resolve failures. -/
def credentialsException (securityScopes : List String) : HTTPException :=
  ⟨401, "Could not validate credentials", some (authenticateValue securityScopes)⟩

/-- The 401 raised when a required scope is missing. -/
def scopeException (securityScopes : List String) : HTTPException :=
  ⟨401, "Not enough permissions", some (authenticateValue securityScopes)⟩

/-- The scope-check loop of `get_current_user`: every required scope must
satisfy `scope in token_data.scopes`, Python substring containment on the
space-joined scopes string. -/
def checkScopes (required : List String) (tokenScopes : String) : Bool :=
  required.all (fun s => pyIn s tokenScopes)

/-- Embedding of `get_current_user(security_scopes, token, db)`: decode the
JWT, require a `sub` claim, fetch `scopes` (default: the empty string),
resolve the user by username, then check each required scope by substring
containment; failures raise 401. -/
def get_current_user (securityScopes : List String) (token : SignedToken)
    (db : List DbUser) (secret alg : String) (now : Int) :
    Except HTTPException DbUser :=
  match jwt_decode token secret alg now with
  | .error _ => .error (credentialsException securityScopes)
  | .ok payload =>
    match payload.sub with
    | none => .error (credentialsException securityScopes)
    | some username =>
      let tokenScopes := payload.scopes.getD ""
      match get_user db username with
      | none => .error (credentialsException securityScopes)
      | some user =>
        if checkScopes securityScopes tokenScopes then .ok user
        else .error (scopeException securityScopes)

/-- The 400 raised by `get_current_active_user` when the resolved user is
disabled. -/
def inactiveException : HTTPException := ⟨400, "Inactive user", none⟩

/-- An endpoint guarded by `Security(get_current_active_user, scopes=es)`:
FastAPI accumulates the scopes declared along the dependency chain, so the
`SecurityScopes` received by `get_current_user` are the endpoint's scopes
together with the literal "admin user" declared inside
`get_current_active_user`. -/
def endpointViaActiveUser (endpointScopes : List String) (token : SignedToken)
    (db : List DbUser) (secret alg : String) (now : Int) :
    Except HTTPException DbUser :=
  match get_current_user (endpointScopes ++ ["admin user"]) token db secret alg now with
  | .error e => .error e
  | .ok user =>
    if user.disabled then .error inactiveException else .ok user

/-! ## Credential codec (`app/auth/auth.py` and the pyca bcrypt library)

The repository delegates verification to `bcrypt.checkpw`. That routine
parses the salt prefix of the stored digest first: when the prefix does
not parse it raises `ValueError("Invalid salt")`; when it does parse, it
recomputes the hash of the candidate password under the digest's cost and
salt and compares in constant time, returning a boolean without raising —
also for inputs that are not full well-formed hashes, such as a salt-only
`gensalt()` output, where the comparison is simply false. The raw hash
computation (Eksblowfish) is a parameter `core`: `core p h` is the digest
of password `p` under the cost and salt encoded in `h`. Every theorem
below holds for all `core`, hence for real bcrypt. -/

/-- Membership in the bcrypt base64 alphabet "./A-Za-z0-9". -/
def bcryptB64Char (c : Char) : Bool :=
  c == '.' || c == '/' || ('A' ≤ c && c ≤ 'Z') || ('a' ≤ c && c ≤ 'z')
    || ('0' ≤ c && c ≤ '9')

/-- Splitting of a character list at every dollar sign. -/
def splitDollar : List Char → List (List Char)
  | [] => [[]]
  | c :: rest =>
    if c = '$' then [] :: splitDollar rest
    else
      match splitDollar rest with
      | [] => [[c]]
      | h :: t => (c :: h) :: t

/-- Numeric value of a digit string. -/
def digitsVal (l : List Char) : Nat :=
  l.foldl (fun n c => n * 10 + (c.toNat - 48)) 0

/-- Salt parsing of pyca bcrypt's checkpw/hashpw — the raise boundary of
the library. The digest is split at dollar signs and empty segments are
dropped; there must be a version tag among 2a, 2b, 2x, 2y, a cost that
parses as an unsigned 32-bit integer (one digit is fine), and a final
segment supplying the 22 bcrypt-base64 salt characters — a salt-only
`gensalt()` output and a full salt+hash digest both qualify. Anything
else makes the library raise `ValueError("Invalid salt")`. -/
def bcryptSaltParses (s : String) : Bool :=
  match (splitDollar s.toList).filter (fun p => p ≠ []) with
  | version :: cost :: salt :: _ =>
    (version == ['2', 'a'] || version == ['2', 'b'] || version == ['2', 'x']
        || version == ['2', 'y'])
      && cost.all (fun c => c.isDigit) && digitsVal cost < 2 ^ 32
      && 22 ≤ salt.length && (salt.take 22).all bcryptB64Char
  | _ => false

/-- Model of `bcrypt.checkpw(password, hashed)`: `ValueError` exactly when
the salt prefix of `hashed` does not parse; otherwise the constant-time
comparison of the recomputed digest against the stored bytes (false on any
length mismatch, e.g. against a salt-only digest), without raising. -/
def checkpw (core : String → String → String) (password hashed : String) :
    Except String Bool :=
  if bcryptSaltParses hashed then .ok (core password hashed == hashed)
  else .error "Invalid salt"

/-- Embedding of `verify_password(plain_password, hashed_password)`:
`if not hashed_password: return False` short-circuits on `None` and on the
empty string; otherwise the call goes to `bcrypt.checkpw`, whose
`ValueError` propagates. -/
def verify_password (core : String → String → String) (plain : String)
    (hashed : Option String) : Except String Bool :=
  match hashed with
  | none => .ok false
  | some h => if h = "" then .ok false else checkpw core plain h

/-- Embedding of `authenticate_user(db, username, password)`: look up by
username, return `None` when absent, return `None` when the password does
not verify, otherwise the user. -/
def authenticate_user (core : String → String → String) (db : List DbUser)
    (username password : String) : Except String (Option DbUser) :=
  match get_user db username with
  | none => .ok none
  | some user =>
    match verify_password core password (some user.hashed_password) with
    | .error e => .error e
    | .ok ok => if ok then .ok (some user) else .ok none

/-! ## Account store: create (`user/create.py`)

Constraint identities. The `username` column is declared
`unique=True, index=True`, so the store enforces it through the unique
index named by SQLAlchemy's default convention: `ix_users_username` —
the very string `create_user` greps for. The `email` column is declared
`unique=True` without `index=True`, so the store enforces it through the
table-level UNIQUE constraint, which PostgreSQL (the configured backend,
`postgresql+asyncpg`; tables created by `Base.metadata.create_all`) names
`users_email_key`. A unique violation surfaces as an `IntegrityError`
whose `str(e.orig)` quotes the violated constraint's name. -/

def usernameConstraintName : String := "ix_users_username"

def emailConstraintName : String := "users_email_key"

/-- Text of `str(e.orig)` for an asyncpg unique violation: PostgreSQL
quotes the violated constraint name. -/
def pgUniqueViolationMsg (constraint : String) : String :=
  "duplicate key value violates unique constraint \"" ++ constraint ++ "\""

/-- Store-level outcome of flushing the INSERT inside the nested
transaction: a unique violation on the username index or (for a non-null
email) on the email unique constraint, else success. `db` is the store
state at insert time, which in a race may differ from the state the
pre-flight check saw. -/
def insertUser (db : List DbUser) (u : DbUser) : Except String (List DbUser) :=
  if db.any (fun r => r.username == u.username) then
    .error (pgUniqueViolationMsg usernameConstraintName)
  else if (match u.email with
           | some e => db.any (fun r => r.email == some e)
           | none => false) then
    .error (pgUniqueViolationMsg emailConstraintName)
  else .ok (db ++ [u])

/-- Validated `UserCreate` input as it reaches `create_user`
(`user/user.py`: `scopes` is a required `str` on the schema). -/
structure UserCreate where
  username : String
  email : Option String
  full_name : Option String
  disabled : Bool
  scopes : String
  password : String
  deriving DecidableEq, Repr

def conflictUsername : HTTPException :=
  ⟨409, "A user with this username already exists.", none⟩

def conflictEmail : HTTPException :=
  ⟨409, "A user with this email already exists.", none⟩

def internalDbError : HTTPException :=
  ⟨500, "A database error occurred.", none⟩

/-- The `except IntegrityError` handler of `create_user`: dispatch on the
constraint identity by substring search in `str(e.orig)`; anything else
becomes a generic 500. -/
def translateIntegrityError (msg : String) : HTTPException :=
  if pyIn "ix_users_username" msg then conflictUsername
  else if pyIn "ix_users_email" msg then conflictEmail
  else internalDbError

/-- SQL `or_`-clause match of the pre-flight SELECT: username equality, or
the email clause. SQLAlchemy renders `DBUser.email == user.email` with a
`None` input as `email IS NULL`, which matches every NULL-email row; with
a non-null input it is plain SQL equality, which a NULL column value never
satisfies. -/
def preflightMatch (u : UserCreate) (r : DbUser) : Bool :=
  r.username == u.username ||
    (match u.email, r.email with
     | some e, some re => re == e
     | none, none => true
     | _, _ => false)

/-- Embedding of `create_user(db, user)`. `dbPre` is the store state the
pre-flight SELECT observes; `dbIns` the state at the INSERT — they differ
exactly when a conflicting row lands in between (the race). `hashFn`
models `get_password_hash`. On success returns the created row and the
new store state. -/
def create_user (hashFn : String → String) (dbPre dbIns : List DbUser)
    (user : UserCreate) (newId : Nat) : Except HTTPException (DbUser × List DbUser) :=
  match dbPre.find? (preflightMatch user) with
  | some existing =>
    if existing.username == user.username then .error conflictUsername
    else if existing.email == user.email then .error conflictEmail
    else .error internalDbError
  | none =>
    let row : DbUser :=
      { id := newId
        username := user.username
        email := user.email
        hashed_password := hashFn user.password
        full_name := user.full_name
        disabled := user.disabled
        scopes := if user.scopes = "" then "user" else user.scopes }
    match insertUser dbIns row with
    | .error msg => .error (translateIntegrityError msg)
    | .ok db2 => .ok (row, db2)

/-! ## Registration payload validation (`user/user.py`)

The pydantic schema `UserCreate(User)` inherits `username: str` (required,
no default), `email`, `full_name` (optional, default None), `disabled`
(default False) and `scopes: str` — required, with no default — and adds
the required `password: str`. A JSON payload missing a required field is
rejected with a validation error before `create_user` runs. -/

/-- A registration JSON body: each field either absent or present. -/
structure RegisterPayload where
  username : Option String
  email : Option String
  password : Option String
  full_name : Option String
  disabled : Option Bool
  scopes : Option String
  deriving DecidableEq, Repr

/-- Names of required `UserCreate` fields missing from the payload. -/
def missingRequired (p : RegisterPayload) : List String :=
  (if p.username.isNone then ["username"] else []) ++
  (if p.scopes.isNone then ["scopes"] else []) ++
  (if p.password.isNone then ["password"] else [])

/-- Pydantic validation of a registration body against `UserCreate`:
fails (HTTP 422) naming the missing required fields, otherwise fills the
optional fields with their schema defaults. -/
def parseUserCreate (p : RegisterPayload) : Except (List String) UserCreate :=
  match p.username, p.scopes, p.password with
  | some u, some sc, some pw =>
    .ok ⟨u, p.email, p.full_name, p.disabled.getD false, sc, pw⟩
  | _, _, _ => .error (missingRequired p)

/-! ## Self-service partial update (`app/routers/auth/user_me_router.py`)

The endpoint receives the same request-scoped session the authentication
dependency already ran its user SELECT on (FastAPI caches `get_db` per
request), and SQLAlchemy autobegins a transaction on that first statement.
The endpoint then enters `async with db.begin()`, which raises
`InvalidRequestError` when a transaction is already begun; inside the
block the row is re-fetched, the exclude-unset dump is applied by
`setattr`, and the commit at block exit is where the store enforces the
NOT NULL and UNIQUE constraints — nothing in the router catches those, so
`IntegrityError`/`InvalidRequestError` surface as 500 server errors. -/

/-- The dynamic `setattr` targets produced by
`user_update.model_dump(exclude_unset=True)` for a `UserBaseUpdate`; all
three schema fields are `str | None`, so an explicitly supplied null is a
legal value and is dumped and assigned like any other. -/
inductive UpdateField where
  | username (v : Option String)
  | email (v : Option String)
  | full_name (v : Option String)
  deriving DecidableEq, Repr

/-- A `UserBaseUpdate` body with pydantic's set/unset distinction: a field
is in the dump only when it was explicitly present in the request, and an
explicitly present field may carry null. -/
structure UserBaseUpdate where
  username : Option (Option String)
  email : Option (Option String)
  full_name : Option (Option String)
  deriving DecidableEq, Repr

/-- Dump of `model_dump(exclude_unset=True)` in the schema's field order. -/
def modelDumpExcludeUnset (p : UserBaseUpdate) : List UpdateField :=
  (match p.username with | some v => [.username v] | none => []) ++
  (match p.email with | some v => [.email v] | none => []) ++
  (match p.full_name with | some v => [.full_name v] | none => [])

/-- An in-session ORM row between `setattr` and flush: `username` may hold
the null a payload assigned, which only the store's NOT NULL constraint
rejects at commit. -/
structure PendingUser where
  id : Nat
  username : Option String
  email : Option String
  hashed_password : String
  full_name : Option String
  disabled : Bool
  scopes : String
  deriving DecidableEq, Repr

/-- The fetched row as an in-session object. -/
def toPending (u : DbUser) : PendingUser :=
  ⟨u.id, some u.username, u.email, u.hashed_password, u.full_name,
   u.disabled, u.scopes⟩

/-- One `setattr(user, key, value)` step. -/
def setField (u : PendingUser) : UpdateField → PendingUser
  | .username v => { u with username := v }
  | .email v => { u with email := v }
  | .full_name v => { u with full_name := v }

def notFoundException : HTTPException := ⟨404, "User not found.", none⟩

/-- A request-scoped session: the store it sees plus whether a transaction
has already begun on it (SQLAlchemy autobegins one on the session's first
statement). -/
structure Session where
  db : List DbUser
  inTransaction : Bool
  deriving DecidableEq, Repr

/-- The session as the endpoint receives it in the request wiring: the
Scope Authorizer's user SELECT has already autobegun a transaction. -/
def afterAuthDependency (db : List DbUser) : Session := ⟨db, true⟩

/-- Model of `session.begin()`: raises `InvalidRequestError` when a
transaction is already begun on the session. -/
def db_begin (s : Session) : Except String Session :=
  if s.inTransaction then .error "A transaction is already begun on this Session."
  else .ok { s with inTransaction := true }

/-- Message of a NOT NULL violation on the username column. -/
def notNullUsernameMsg : String :=
  "null value in column \"username\" of relation \"users\" violates not-null constraint"

/-- Store-side enforcement at commit of the UPDATE: NOT NULL on username,
then the unique username index and the unique email constraint checked
against the other rows; on success the persisted row. -/
def commitUpdatedUser (db : List DbUser) (orig : DbUser) (p : PendingUser) :
    Except String DbUser :=
  match p.username with
  | none => .error notNullUsernameMsg
  | some uname =>
    if db.any (fun r => r.id != orig.id && r.username == uname) then
      .error (pgUniqueViolationMsg usernameConstraintName)
    else if (match p.email with
             | some e => db.any (fun r => r.id != orig.id && r.email == some e)
             | none => false) then
      .error (pgUniqueViolationMsg emailConstraintName)
    else
      .ok ⟨orig.id, uname, p.email, p.hashed_password, p.full_name,
           p.disabled, p.scopes⟩

/-- Outcome surfaced by the router: an `HTTPException` it raised itself, or
an uncaught exception the framework turns into a 500 server error. -/
inductive EndpointFailure where
  | http (e : HTTPException)
  | serverError (msg : String)
  deriving DecidableEq, Repr

/-- Embedding of `update_own_user(user_update, db, current_user)` with its
transaction demarcation: `db.begin()` (raises on an already-begun
session), re-fetch of the row (404 when gone), the `setattr` loop over the
exclude-unset dump, and the commit at block exit where the store enforces
its constraints; commit failures are uncaught and surface as 500. -/
def update_own_user (sess : Session) (payload : UserBaseUpdate)
    (currentId : Nat) : Except EndpointFailure DbUser :=
  match db_begin sess with
  | .error msg => .error (.serverError msg)
  | .ok s1 =>
    match s1.db.find? (fun r => r.id == currentId) with
    | none => .error (.http notFoundException)
    | some user =>
      let updated := (modelDumpExcludeUnset payload).foldl setField (toPending user)
      match commitUpdatedUser s1.db user updated with
      | .error msg => .error (.serverError msg)
      | .ok row => .ok row

/-! ## Helper lemmas -/

/-- Successful decoding returns the token's own claim set. -/
theorem jwt_decode_ok_claims (t : SignedToken) (secret alg : String) (now : Int)
    (p : JwtClaims) (h : jwt_decode t secret alg now = .ok p) : p = t.claims := by
  unfold jwt_decode at h
  split at h
  · exact absurd h (by simp)
  · split at h
    · exact absurd h (by simp)
    · split at h
      · exact absurd h (by simp)
      · injection h with h
        exact h.symm

/-- Authorization success implies the containment check passed on the full
required-scope list against the token's scopes string. -/
theorem get_current_user_ok_scopes (ss : List String) (t : SignedToken)
    (db : List DbUser) (secret alg : String) (now : Int) (u : DbUser)
    (h : get_current_user ss t db secret alg now = .ok u) :
    checkScopes ss (t.claims.scopes.getD "") = true := by
  unfold get_current_user at h
  split at h
  · exact absurd h (by simp)
  case _ payload hdec =>
    have hp := jwt_decode_ok_claims _ _ _ _ _ hdec
    subst hp
    split at h
    · exact absurd h (by simp)
    case _ username hsub =>
      split at h
      · exact absurd h (by simp)
      case _ user huser =>
        by_cases hc : checkScopes ss (t.claims.scopes.getD "") = true
        · exact hc
        · simp only [hc, if_false] at h
          simp at h

/-! ## Claims -/

/-- C1 (counterexample). The claim says a required scope passes only when
it is one of the whitespace-separated tokens of the token's scopes string,
and in particular that a scopes string "superuser" does not satisfy the
required scope "user". In the code the check is Python substring
containment on the scopes string, so a token whose scopes string is the
single space-free token "superuser" — not equal to "user" — is authorized
by `get_current_user` for required scope "user". -/
theorem C1_counterexample :
    get_current_user ["user"]
        (jwt_encode ⟨some "alice", some "superuser", 100⟩ "sk" "HS256")
        [⟨1, "alice", none, "h", none, false, "superuser"⟩] "sk" "HS256" 50
      = .ok ⟨1, "alice", none, "h", none, false, "superuser"⟩
    ∧ "superuser" ≠ "user"
    ∧ "superuser".toList.contains ' ' = false :=
  ⟨rfl, by decide, by decide⟩

/-- C1 (amended). The scope check of the Scope Authorizer tests each
required scope by Python substring containment against the space-joined
scopes string: a required scope passes if and only if it occurs as a
contiguous substring of the token's scopes string — so prefix and
substring matches (e.g. "user" against "superuser") also pass. -/
theorem C1_scope_check_substring_semantics (required : List String)
    (tokenScopes : String) :
    checkScopes required tokenScopes = true ↔
      ∀ s ∈ required, s.toList <:+: tokenScopes.toList := by
  simp [checkScopes, List.all_eq_true, pyIn_iff]

/-- C1 (witness for the amended theorem): instantiated at required scope
"user" and scopes string "superuser", the containment check passes and
yields the substring occurrence. -/
theorem C1_witness : ("user".toList <:+: "superuser".toList) :=
  (C1_scope_check_substring_semantics ["user"] "superuser").mp (by decide)
    "user" (by simp)

/-- C2 (code bug, evaluated at the failing input). In the race where a row
with the same email lands between the pre-flight check and the INSERT, the
store reports the email unique constraint, which PostgreSQL names
users_email_key; the handler greps `str(e.orig)` for "ix_users_email",
which never occurs, so the conflict falls through to the generic 500
instead of the 409 naming the email field. The username constraint, whose
index really is named ix_users_username, is translated to its 409. -/
theorem C2_email_race_surfaces_500 :
    create_user (fun p => p) []
        [⟨1, "bob", some "a@b.c", "h", none, false, "user"⟩]
        ⟨"alice", some "a@b.c", none, false, "user", "pw"⟩ 2
      = .error internalDbError
    ∧ translateIntegrityError (pgUniqueViolationMsg emailConstraintName)
        = internalDbError
    ∧ internalDbError.statusCode = 500
    ∧ internalDbError ≠ conflictEmail
    ∧ translateIntegrityError (pgUniqueViolationMsg usernameConstraintName)
        = conflictUsername :=
  ⟨rfl, rfl, rfl, by simp [internalDbError, conflictEmail], rfl⟩

/-- C4 (confirmed). When the token decodes, its subject resolves to an
existing user, and at least one required scope fails the containment check
(`checkScopes` is false), `get_current_user` fails with the
"Not enough permissions" outcome, which differs from the
"Could not validate credentials" outcome of the earlier
extract/decode/resolve failures (same 401 status; distinct detail). -/
theorem C4_insufficient_scope_distinct (ss : List String) (token : SignedToken)
    (db : List DbUser) (secret alg : String) (now : Int) (payload : JwtClaims)
    (username : String) (user : DbUser)
    (hdec : jwt_decode token secret alg now = .ok payload)
    (hsub : payload.sub = some username)
    (huser : get_user db username = some user)
    (hmiss : checkScopes ss (payload.scopes.getD "") = false) :
    get_current_user ss token db secret alg now = .error (scopeException ss)
    ∧ scopeException ss ≠ credentialsException ss := by
  constructor
  · simp only [get_current_user, hdec, hsub, huser, hmiss]
    simp
  · simp [scopeException, credentialsException]

/-- C4 (witness): a token with scopes "user" against required ["admin"]
for an existing user yields exactly the insufficient-permissions 401,
distinct from the credentials 401. -/
theorem C4_witness :
    get_current_user ["admin"]
        (jwt_encode ⟨some "alice", some "user", 100⟩ "sk" "HS256")
        [⟨1, "alice", none, "h", none, false, "user"⟩] "sk" "HS256" 50
      = .error (scopeException ["admin"])
    ∧ scopeException ["admin"] ≠ credentialsException ["admin"] :=
  C4_insufficient_scope_distinct ["admin"]
    (jwt_encode ⟨some "alice", some "user", 100⟩ "sk" "HS256")
    [⟨1, "alice", none, "h", none, false, "user"⟩] "sk" "HS256" 50
    ⟨some "alice", some "user", 100⟩ "alice"
    ⟨1, "alice", none, "h", none, false, "user"⟩
    rfl rfl rfl (by decide)

/-- C5 (confirmed). `authenticate_user` returns the identical `None`
sentinel both when no user with the given username exists and when the
user exists but password verification returns false; the two failure runs
produce equal results (anti-enumeration). Holds for every bcrypt core. -/
theorem C5_anti_enumeration (core : String → String → String)
    (db : List DbUser) (ghostName ghostPw realName realPw : String)
    (user : DbUser)
    (h1 : get_user db ghostName = none)
    (h2 : get_user db realName = some user)
    (h3 : verify_password core realPw (some user.hashed_password) = .ok false) :
    authenticate_user core db ghostName ghostPw = .ok none
    ∧ authenticate_user core db realName realPw = .ok none
    ∧ authenticate_user core db ghostName ghostPw
        = authenticate_user core db realName realPw := by
  refine ⟨?_, ?_, ?_⟩ <;> simp [authenticate_user, h1, h2, h3]

/-- C5 (witness): a store holding alice with a well-formed bcrypt digest,
under a core whose recomputed digest never matches; the unknown-user run
and the wrong-password run both return the `None` sentinel and are
equal. -/
theorem C5_witness :
    authenticate_user (fun _ _ => "")
        [⟨1, "alice", none,
          "$2b$12$abcdefghijklmnopqrstuvwxyzABCDEFGHIJKLMNOPQRSTUVWXYZ0",
          none, false, "user"⟩] "ghost" "anything" = .ok none
    ∧ authenticate_user (fun _ _ => "")
        [⟨1, "alice", none,
          "$2b$12$abcdefghijklmnopqrstuvwxyzABCDEFGHIJKLMNOPQRSTUVWXYZ0",
          none, false, "user"⟩] "alice" "wrong" = .ok none
    ∧ authenticate_user (fun _ _ => "")
        [⟨1, "alice", none,
          "$2b$12$abcdefghijklmnopqrstuvwxyzABCDEFGHIJKLMNOPQRSTUVWXYZ0",
          none, false, "user"⟩] "ghost" "anything"
      = authenticate_user (fun _ _ => "")
        [⟨1, "alice", none,
          "$2b$12$abcdefghijklmnopqrstuvwxyzABCDEFGHIJKLMNOPQRSTUVWXYZ0",
          none, false, "user"⟩] "alice" "wrong" :=
  C5_anti_enumeration (fun _ _ => "")
    [⟨1, "alice", none,
      "$2b$12$abcdefghijklmnopqrstuvwxyzABCDEFGHIJKLMNOPQRSTUVWXYZ0",
      none, false, "user"⟩] "ghost" "anything" "alice" "wrong"
    ⟨1, "alice", none,
      "$2b$12$abcdefghijklmnopqrstuvwxyzABCDEFGHIJKLMNOPQRSTUVWXYZ0",
      none, false, "user"⟩ rfl rfl rfl

/-- C6 (confirmed). For every subject and scopes value, decoding a token
immediately after issuing it with the default ttl (no expiry delta, so the
15-minute fallback) under the same secret and algorithm succeeds — the
token is unexpired and the signature verifies — and the decoded claims
carry the same subject and the same scopes that were supplied. -/
theorem C6_issue_decode_roundtrip (sub scopes : String) (now : Int)
    (secret alg : String) :
    jwt_decode (create_access_token ⟨some sub, some scopes⟩ none now secret alg)
        secret alg now
      = .ok ⟨some sub, some scopes, now + 15 * 60⟩ := by
  simp only [create_access_token, timedeltaTruthy, jwt_encode, jwt_decode,
    Bool.false_eq_true, if_false]
  rw [if_neg (by simp), if_neg (by simp), if_neg (by omega)]

/-- C7 (code bug, evaluated at the failing input). A registration body
supplying only username and password is rejected by pydantic validation of
`UserCreate`, whose inherited `scopes` field is required with no default —
`create` is never reached, contradicting the claimed default-scope
success (and the repository's own end-to-end test, which registers
without scopes and asserts success). -/
theorem C7_register_missing_scopes_rejected :
    parseUserCreate ⟨some "alice", none, some "Secret123!", none, none, none⟩
      = .error ["scopes"] := rfl

/-- C8 (code bug, evaluated at the failing inputs). In the request wiring
the session the endpoint receives already has a transaction begun by the
Scope Authorizer's user SELECT, so `db.begin()` raises
InvalidRequestError and every self-update — here one setting only
full_name on an existing row — surfaces as a 500 server error with the
row unchanged, instead of the claimed patch application. On a session
with no open transaction the claimed partial semantics do hold for
conflict-free payloads (the present field is applied, unset fields and
scopes keep their prior values, and a missing row fails 404), but a
payload whose username collides with another row, or an explicit-null
username, is rejected only by the store at commit and surfaces as an
uncaught 500, not as the claimed applied update. -/
theorem C8_self_update_500 :
    update_own_user (afterAuthDependency
        [⟨1, "alice", some "a@b.c", "h", some "Alice", false, "user"⟩])
        ⟨none, none, some (some "New Name")⟩ 1
      = .error (.serverError "A transaction is already begun on this Session.")
    ∧ update_own_user
        ⟨[⟨1, "alice", some "a@b.c", "h", some "Alice", false, "user"⟩], false⟩
        ⟨none, none, some (some "New Name")⟩ 1
      = .ok ⟨1, "alice", some "a@b.c", "h", some "New Name", false, "user"⟩
    ∧ update_own_user
        ⟨[⟨1, "alice", some "a@b.c", "h", some "Alice", false, "user"⟩], false⟩
        ⟨none, none, some (some "New Name")⟩ 2
      = .error (.http notFoundException)
    ∧ update_own_user
        ⟨[⟨1, "alice", some "a@b.c", "h", some "Alice", false, "user"⟩,
          ⟨2, "bob", some "b@b.c", "h", none, false, "user"⟩], false⟩
        ⟨some (some "alice"), none, none⟩ 2
      = .error (.serverError (pgUniqueViolationMsg usernameConstraintName))
    ∧ update_own_user
        ⟨[⟨1, "alice", some "a@b.c", "h", some "Alice", false, "user"⟩], false⟩
        ⟨some none, none, none⟩ 1
      = .error (.serverError notNullUsernameMsg) :=
  ⟨rfl, rfl, rfl, rfl, rfl⟩

/-- C9 (confirmed). An endpoint composed through the active-user check
calls the scope authorizer with the endpoint's own scopes plus the single
literal scope string "admin user" (containing a space); whenever such an
endpoint authorizes a request, the containment check passed on that full
list, and in particular the token's scopes string contains "admin user"
as a substring — regardless of the endpoint's declared scopes. -/
theorem C9_active_user_literal_scope (es : List String) (token : SignedToken)
    (db : List DbUser) (secret alg : String) (now : Int) (user : DbUser)
    (h : endpointViaActiveUser es token db secret alg now = .ok user) :
    checkScopes (es ++ ["admin user"]) (token.claims.scopes.getD "") = true
    ∧ pyIn "admin user" (token.claims.scopes.getD "") = true := by
  unfold endpointViaActiveUser at h
  split at h
  · exact absurd h (by simp)
  case _ u hg =>
    have hcs := get_current_user_ok_scopes _ _ _ _ _ _ _ hg
    refine ⟨hcs, ?_⟩
    have hall := (List.all_eq_true.mp hcs) "admin user" (by simp)
    simpa using hall

/-- C9 (witness): a request through an active-user endpoint declaring
scope "admin", carried by a token whose scopes string is "admin user",
succeeds, and the theorem instantiates to the containment facts. -/
theorem C9_witness :
    checkScopes (["admin"] ++ ["admin user"]) "admin user" = true
    ∧ pyIn "admin user" "admin user" = true :=
  C9_active_user_literal_scope ["admin"]
    (jwt_encode ⟨some "root", some "admin user", 100⟩ "sk" "HS256")
    [⟨1, "root", none, "h", none, false, "admin user"⟩] "sk" "HS256" 50
    ⟨1, "root", none, "h", none, false, "admin user"⟩ rfl

/-- C10 (confirmed). Issuing a token with an explicitly supplied
zero-length expiry delta behaves identically to supplying no delta at all:
Python's truthiness test treats the zero duration as absent, and the exp
claim is the fixed 15-minute fallback from issuance time, not immediate
expiry. -/
theorem C10_zero_delta_default (data : TokenPayload) (now : Int)
    (secret alg : String) :
    create_access_token data (some 0) now secret alg
        = create_access_token data none now secret alg
    ∧ (create_access_token data (some 0) now secret alg).claims.exp
        = now + 15 * 60 := by
  constructor <;> simp [create_access_token, jwt_encode, timedeltaTruthy]

end ScopedApi
